import Mathlib

/-!
Verification of the statlab analysis engine (src/backend/services/analysis.py)
against its natural-language specification.

The Python service operates on tables given as lists of records (dicts from
column names to scalar JSON values).  We embed scalar values, tables and the
pandas operations the analysis functions use (column extraction, dropna,
unique, to_numeric coercion, object-dtype string normalisation), then each
analysis function, and prove or refute the spec claims about them.

Python floats are modelled as exact rationals; scipy p-values and test
statistics that involve square roots or transcendental distribution functions
are not modelled — for those results we record the exactly-computable parts
(signs, U statistics, variances) with documentation at each definition.
-/

namespace Statlab

/-- A scalar cell value as it arrives from JSON/pandas: Python int, float
(modelled as an exact rational), string, bool, or the missing marker
(None/NaN).  analysis.py receives these in `data: list[dict]`. -/
inductive Val
  | int (n : ℤ)
  | float (q : ℚ)
  | str (s : String)
  | bool (b : Bool)
  | missing
deriving DecidableEq

/-- A record (one row): association list from column name to value.
pandas fills absent keys with NaN, which `getVal` mirrors. -/
abbrev Rec := List (String × Val)

/-- A table: ordered sequence of records, as in `pd.DataFrame(data)`. -/
abbrev Table := List Rec

/-- Decidable equality of call outcomes, for concrete evaluations. -/
def exceptDecEq {ε α : Type} [DecidableEq ε] [DecidableEq α] :
    DecidableEq (Except ε α)
  | .error e, .error f =>
    if h : e = f then .isTrue (by rw [h]) else
      .isFalse (fun hh => h (Except.error.inj hh))
  | .error _, .ok _ => .isFalse (fun hh => Except.noConfusion hh)
  | .ok _, .error _ => .isFalse (fun hh => Except.noConfusion hh)
  | .ok x, .ok y =>
    if h : x = y then .isTrue (by rw [h]) else
      .isFalse (fun hh => h (Except.ok.inj hh))

instance {ε α : Type} [DecidableEq ε] [DecidableEq α] :
    DecidableEq (Except ε α) := exceptDecEq

/-- Python `str(v).lower()` would lower-case this; we model `str.lower`
as per-character ASCII lowering (all labels in scope are ASCII). -/
def lowerStr (s : String) : String := String.mk (s.data.map Char.toLower)

/-- Python `str.strip()`: remove leading/trailing whitespace. -/
def stripStr (s : String) : String :=
  String.mk (((s.data.dropWhile Char.isWhitespace).reverse.dropWhile
      Char.isWhitespace).reverse)

/-- Python `str(v)` for the values that occur as group labels.
Integral floats print with a trailing ".0" as in Python; the exact digit
string of non-integral floats is irrelevant to every claim (it only feeds
the boolean-likeness subset test, which no string containing a slash or
dot can pass). -/
def pyStr : Val → String
  | .int n => toString n
  | .float q => if q.den = 1 then toString q.num ++ ".0" else toString q
  | .str s => s
  | .bool b => if b then "True" else "False"
  | .missing => "nan"

/-- `str(v).lower()` as used by the boolean-likeness test. -/
def pyStrLower (v : Val) : String := lowerStr (pyStr v)

/-- Numeric view of a value, shared by `pd.to_numeric` and pandas `==`
semantics (`True == 1`, `1 == 1.0`). -/
def valNum? : Val → Option ℚ
  | .int n => some (mkRat n 1)
  | .float q => some q
  | .bool b => some (if b then 1 else 0)
  | _ => none

/-- pandas element equality used by `unique` and boolean-mask filtering:
numbers (ints, floats, bools) compare numerically, strings compare as
strings, NaN compares unequal to everything (including itself). -/
def valEq (a b : Val) : Bool :=
  match a, b with
  | .str s, .str t => decide (s = t)
  | a, b =>
    match valNum? a, valNum? b with
    | some x, some y => decide (x = y)
    | _, _ => false

/-- Column-name list of a DataFrame built from records: union of the
records' keys in first-appearance order. -/
def columns (data : Table) : List String :=
  data.foldl (fun acc r => acc ++ (r.map Prod.fst).filter (fun k => decide (k ∉ acc))) []

/-- First association-list entry for a key. -/
def assocLookup (c : String) : Rec → Option Val
  | [] => none
  | (k, v) :: rest => if k = c then some v else assocLookup c rest

/-- Cell lookup: pandas fills keys absent from a record with NaN. -/
def getVal (r : Rec) (c : String) : Val := (assocLookup c r).getD .missing

/-- `df[c]`: the column as a list of values, one per row. -/
def colVals (data : Table) (c : String) : List Val :=
  data.map (fun r => getVal r c)

/-- `series.dropna()` on a raw column. -/
def dropna (l : List Val) : List Val :=
  l.filter (fun v => match v with | .missing => false | _ => true)

/-- `series.unique()` worker: keep the first occurrence of each value,
under pandas equality, tracking the values already emitted. -/
def pyUniqueAux (seen : List Val) : List Val → List Val
  | [] => []
  | v :: rest =>
    if seen.any (fun w => valEq w v) then pyUniqueAux seen rest
    else v :: pyUniqueAux (v :: seen) rest

/-- `series.unique()`: distinct values in first-appearance order, under
pandas equality. -/
def pyUnique (l : List Val) : List Val := pyUniqueAux [] l

/-- Decimal digit run to a natural number. -/
def digitsToNat (cs : List Char) : ℕ :=
  cs.foldl (fun a c => a * 10 + (c.toNat - '0'.toNat)) 0

/-- Split a character list at the first '.', if any. -/
def splitDot : List Char → List Char × Option (List Char)
  | [] => ([], none)
  | c :: r =>
    if c = '.' then ([], some r)
    else
      let p := splitDot r
      (c :: p.1, p.2)

/-- Numeric-string parsing as performed by `pd.to_numeric(errors="coerce")`:
optional surrounding whitespace and sign, decimal digits with an optional
fractional part ("5", "5.5", ".5", "5." all parse).  Exponent notation is
not modelled (no claim exercises it). -/
def parseNum (s : String) : Option ℚ :=
  let t := (stripStr s).data
  let (sgn, rest) : ℤ × List Char :=
    match t with
    | '-' :: r => (-1, r)
    | '+' :: r => (1, r)
    | r => (1, r)
  let p := splitDot rest
  let intPart := p.1
  let fracPart := (p.2).getD []
  if intPart.all Char.isDigit && fracPart.all Char.isDigit &&
      !(intPart.isEmpty && fracPart.isEmpty) && !(rest.isEmpty) then
    some (mkRat (sgn * (digitsToNat (intPart ++ fracPart) : ℤ)) (10 ^ fracPart.length))
  else
    none

/-- One cell under `pd.to_numeric(·, errors="coerce")`: numbers and bools
coerce to their numeric value, numeric strings are parsed, everything else
becomes NaN (`none`). -/
def coerce : Val → Option ℚ
  | .str s => parseNum s
  | v => valNum? v

/-- `pd.to_numeric(col, errors="coerce").dropna()`. -/
def coerceDropna (l : List Val) : List ℚ :=
  (l.map coerce).filterMap id

/-! ### Python rounding

`round(x, 4)` in Python rounds to 4 decimal places with ties to even.
On our exact-rational model of floats this is `rhe (x * 10^4) / 10^4`. -/

/-- Round half to even (banker's rounding) on rationals. -/
def rhe (q : ℚ) : ℤ :=
  if 2 * (q - ⌊q⌋) < 1 then ⌊q⌋
  else if 1 < 2 * (q - ⌊q⌋) then ⌊q⌋ + 1
  else if ⌊q⌋ % 2 = 0 then ⌊q⌋ else ⌊q⌋ + 1

/-- Python `round(x, 4)` on the exact-rational float model. -/
def pyRound4 (q : ℚ) : ℚ := (rhe (q * 10000) : ℚ) / 10000

/-! ### NaN-aware float results -/

/-- A reported float value: either a NaN or a finite value.  Infinities do
not arise in the paths modelled here (divisions are all guarded or of the
0/0 kind, which gives NaN).  For quantities whose true value involves a
square root (std, skewness) the `fin` payload carries a documented rational
proxy with the same NaN-ness. -/
inductive QF
  | nan
  | fin (q : ℚ)
deriving DecidableEq

def QF.isNaN : QF → Bool
  | .nan => true
  | .fin _ => false

/-! ### Descriptive statistics (analysis.py: descriptive_statistics) -/

/-- `series.mean()`: sum over length. -/
def meanQ (l : List ℚ) : ℚ := l.sum / l.length

/-- Sample variance with ddof = 1, the square of `series.std()`. -/
def sampleVar (l : List ℚ) : ℚ :=
  ((l.map (fun x => (x - meanQ l) ^ 2)).sum) / ((l.length : ℚ) - 1)

/-- Biased central moment `m_k` as used by `scipy.stats.skew` / `kurtosis`. -/
def centralMoment (l : List ℚ) (k : ℕ) : ℚ :=
  ((l.map (fun x => (x - meanQ l) ^ k)).sum) / l.length

/-- Ascending sort, for quantile interpolation. -/
def sortQ (l : List ℚ) : List ℚ := l.insertionSort (· ≤ ·)

/-- `series.quantile(p)` with pandas' default linear interpolation:
index h = p·(n−1) into the ascending sort, linearly interpolated.  For the
quantiles used here (p ≤ 3/4) the upper index only matters when γ > 0, so
the `getD` fallback never affects the value; on an empty series the caller
guards with NaN. -/
def quantileR (l : List ℚ) (p : ℚ) : ℚ :=
  let s := sortQ l
  let h := p * ((s.length : ℚ) - 1)
  let j := (⌊h⌋).toNat
  let lo := s.getD j 0
  let hi := s.getD (j + 1) lo
  lo + (h - ⌊h⌋) * (hi - lo)

/-- The per-column output block of descriptive_statistics.  `stdVar` holds
the sample variance, whose square root the code reports as `std` (same
NaN-ness, rounding omitted on this proxy); `skewSq` holds the square of the
reported skewness m₃/m₂^1.5 (same NaN-ness: NaN exactly when m₂ = 0, e.g. a
single observation or a constant series).  All other fields are the exact
reported values, rounded to 4 decimals as in the code. -/
structure StatsBlock where
  count : ℕ
  mean : QF
  median : QF
  stdVar : QF
  vmin : QF
  vmax : QF
  q1 : QF
  q3 : QF
  iqr : QF
  skewSq : QF
  kurtosis : QF
  outliers : ℕ
deriving DecidableEq

/-- Build one column's stats block from its coerced numeric series
(analysis.py lines 47-67). -/
def mkStatsBlock (series : List ℚ) : StatsBlock :=
  let n := series.length
  let qq1 := quantileR series (1 / 4)
  let qq3 := quantileR series (3 / 4)
  let iqrR := qq3 - qq1
  { count := n
    mean := if n = 0 then .nan else .fin (pyRound4 (meanQ series))
    median := if n = 0 then .nan else .fin (pyRound4 (quantileR series (1 / 2)))
    stdVar := if n ≤ 1 then .nan else .fin (sampleVar series)
    vmin := match (sortQ series).head? with
      | some x => .fin (pyRound4 x)
      | none => .nan
    vmax := match (sortQ series).getLast? with
      | some x => .fin (pyRound4 x)
      | none => .nan
    q1 := if n = 0 then .nan else .fin (pyRound4 qq1)
    q3 := if n = 0 then .nan else .fin (pyRound4 qq3)
    iqr := if n = 0 then .nan else .fin (pyRound4 iqrR)
    skewSq := if n = 0 ∨ centralMoment series 2 = 0 then .nan
      else .fin ((centralMoment series 3) ^ 2 / (centralMoment series 2) ^ 3)
    kurtosis := if n = 0 ∨ centralMoment series 2 = 0 then .nan
      else .fin (pyRound4 (centralMoment series 4 / (centralMoment series 2) ^ 2 - 3))
    outliers := series.countP
      (fun x => decide (x < qq1 - 3 / 2 * iqrR) || decide (qq3 + 3 / 2 * iqrR < x)) }

/-- The boolean-likeness skip test of descriptive_statistics (analysis.py
lines 42-45): the set of case-lowered distinct non-missing raw values is a
subset of {"true","false","0","1"}.  Note: no cap on the number of distinct
values — this is the check as implemented. -/
def boolLike (raw : List Val) : Bool :=
  ((pyUnique (dropna raw)).map pyStrLower).all
    (fun s => decide (s ∈ ["true", "false", "0", "1"]))

/-- descriptive_statistics: per requested column, skip silently when the
column is absent or boolean-like, else emit its stats block keyed by the
column name (insertion order = request order, as for a Python dict). -/
def descriptiveStatistics (data : Table) (cols : List String) :
    List (String × StatsBlock) :=
  cols.filterMap (fun col =>
    if decide (col ∈ columns data) then
      if boolLike (colVals data col) then none
      else some (col, mkStatsBlock (coerceDropna (colVals data col)))
    else none)

def StatsBlock.hasNaN (b : StatsBlock) : Bool :=
  b.mean.isNaN || b.median.isNaN || b.stdVar.isNaN || b.vmin.isNaN ||
  b.vmax.isNaN || b.q1.isNaN || b.q3.isNaN || b.iqr.isNaN ||
  b.skewSq.isNaN || b.kurtosis.isNaN

/-- Whether a descriptive-statistics result contains a NaN anywhere. -/
def resultHasNaN (res : List (String × StatsBlock)) : Bool :=
  res.any (fun p => p.2.hasNaN)

/-! ### Errors

The analysis functions signal input problems by raising ValueError with a
fixed message per raise site; we give each raise site a constructor and
reproduce its message. -/

inductive AErr
  | invalidColumns (g v : String)
  | columnsMissingPlain
  | columnMissing (c : String)
  | invalidGroupCount2 (g : String) (found : ℕ)
  | invalidGroupCount3plus (g : String) (found : ℕ)
  | insufficientGroupSize
  | tooFewValidGroups (skipped : List String)
  | needAtLeast4
  | notEnoughPositive
  | notEnoughSurvival
deriving DecidableEq

/-- The ValueError message of each raise site. -/
def AErr.message : AErr → String
  | .invalidColumns g v =>
      "Columns '" ++ g ++ "' or '" ++ v ++ "' not found in dataset"
  | .columnsMissingPlain => "Columns not found in dataset"
  | .columnMissing c => "Column '" ++ c ++ "' not found in dataset"
  | .invalidGroupCount2 g n =>
      "Expected exactly 2 groups in '" ++ g ++ "', found " ++ toString n ++
      ". Use One-Way ANOVA for 3+ groups."
  | .invalidGroupCount3plus g n =>
      "Expected 3+ groups in '" ++ g ++ "', found " ++ toString n ++
      ". Use t-test / Mann-Whitney for 2 groups."
  | .insufficientGroupSize =>
      "Each group must have at least 3 observations to run this test."
  | .tooFewValidGroups skipped =>
      "After removing small groups, fewer than 3 valid groups remain. " ++
      "Skipped groups: " ++ String.intercalate ", " skipped
  | .needAtLeast4 => "Need at least 4 data points for dose-response curve fitting."
  | .notEnoughPositive =>
      "Not enough positive concentration values for curve fitting. " ++
      "Ensure concentration column has positive non-zero values."
  | .notEnoughSurvival => "Not enough valid observations for survival analysis."

/-! ### Group comparisons (two_group_comparison, one_way_anova) -/

/-- Whether a column gets pandas object dtype, which is the condition for
the in-place string normalisation of the group column.  pandas type
inference on a column built from records: any string makes it object;
bools mixed with anything else — including the missing marker — make it
object (pure bools are dtype bool); a column of only missing values stays
object; pure numbers, with or without missing, become int64/float64.  In
particular a boolean column containing a missing value IS object dtype, so
the .str normalisation fires on it and turns every bool into NaN. -/
def isObjectDtype (col : List Val) : Bool :=
  col.any (fun v => match v with | .str _ => true | _ => false) ||
  (col.any (fun v => match v with | .bool _ => true | _ => false) &&
    col.any (fun v => match v with | .bool _ => false | _ => true)) ||
  col.all (fun v => match v with | .missing => true | _ => false)

/-- The in-place normalisation `df[col].str.strip().str.lower()`: strings
are stripped and lowered; the pandas `.str` accessor turns every non-string
(including None/NaN) into NaN. -/
def normVal : Val → Val
  | .str s => .str (lowerStr (stripStr s))
  | _ => .missing

/-- `df[df[gcol] == lbl][vcol]` coerced and dropna'd: the numeric series of
the value column over the rows whose (possibly normalised) group-column
value equals the label. -/
def seriesFor (data : Table) (gvals : List Val) (vcol : String) (lbl : Val) :
    List ℚ :=
  coerceDropna (((data.zip gvals).filter (fun p => valEq p.2 lbl)).map
    (fun p => getVal p.1 vcol))

/-- The group column as seen after line 98 of analysis.py: normalised in
place when it has object dtype, untouched otherwise. -/
def groupColAfterNorm (data : Table) (gcol : String) : List Val :=
  if isObjectDtype (colVals data gcol) then (colVals data gcol).map normVal
  else colVals data gcol

/-- The deterministic content of a two_group_comparison result.  The scipy
parts that involve square roots or distribution functions (the t statistic's
magnitude, all p-values, Shapiro-Wilk normality, significance flags and the
interpretation string) are not modelled; `tSign` is the sign of
`ttest_ind`'s statistic — the sign of meanA − meanB, since the pooled
standard error is positive whenever the statistic is defined — and `uStat`
is exactly `mannwhitneyu`'s U statistic of the first sample, which is a
rational. -/
structure TwoGroupResult where
  labelA : String
  labelB : String
  groupA : List ℚ
  groupB : List ℚ
  tSign : ℤ
  uStat : ℚ
deriving DecidableEq

/-- Sign of a rational. -/
def qsign (q : ℚ) : ℤ := if 0 < q then 1 else if q < 0 then -1 else 0

/-- `scipy.stats.mannwhitneyu(xs, ys)` statistic: number of pairs with
xs-value greater, counting ties one half. -/
def mwU (xs ys : List ℚ) : ℚ :=
  (xs.map (fun a =>
    (ys.map (fun c => if c < a then (1 : ℚ) else if a = c then 1 / 2 else 0)).sum)).sum

/-- two_group_comparison (analysis.py lines 72-193): validate columns,
count the distinct non-missing raw group values (before normalisation, as
in the code), normalise the group column in place when textual, partition
the value column by the raw labels, require ≥3 numeric observations per
group, and return the result. -/
def twoGroupComparison (data : Table) (gcol vcol : String) :
    Except AErr TwoGroupResult :=
  if decide (gcol ∉ columns data) || decide (vcol ∉ columns data) then
    .error (.invalidColumns gcol vcol)
  else
    match pyUnique (dropna (colVals data gcol)) with
    | [a, b] =>
      let gvals := groupColAfterNorm data gcol
      let sa := seriesFor data gvals vcol a
      let sb := seriesFor data gvals vcol b
      if sa.length < 3 || sb.length < 3 then .error .insufficientGroupSize
      else
        .ok { labelA := pyStr a, labelB := pyStr b,
              groupA := sa, groupB := sb,
              tSign := qsign (meanQ sa - meanQ sb),
              uStat := mwU sa sb }
    | gs => .error (.invalidGroupCount2 gcol gs.length)

/-- The standard direction of a Mann-Whitney effect: sign of
U − n₁·n₂/2 (the sign of the rank-biserial correlation). -/
def uEffectSign (r : TwoGroupResult) : ℤ :=
  qsign (r.uStat - (r.groupA.length : ℚ) * (r.groupB.length : ℚ) / 2)

/-- The deterministic content of a one_way_anova result: retained group
count, skipped labels, and the retained groups' numeric series in
iteration order.  The scipy omnibus statistics (f_oneway, kruskal), their
p-values, the rounded per-group summaries and the interpretation string are
not modelled (they depend on distribution functions); the claims under
verification concern the validation path. -/
structure AnovaResult where
  nGroups : ℕ
  skipped : List String
  groups : List (String × List ℚ)
deriving DecidableEq

/-- one_way_anova (analysis.py lines 196-297): validate columns, require
≥3 distinct non-missing raw group values, normalise the group column in
place when textual, partition by the raw labels, skip groups with <3
numeric observations, and require ≥3 groups to remain. -/
def oneWayAnova (data : Table) (gcol vcol : String) : Except AErr AnovaResult :=
  if decide (gcol ∉ columns data) || decide (vcol ∉ columns data) then
    .error (.invalidColumns gcol vcol)
  else
    let groups := pyUnique (dropna (colVals data gcol))
    if groups.length < 3 then .error (.invalidGroupCount3plus gcol groups.length)
    else
      let gvals := groupColAfterNorm data gcol
      let groupData := groups.map (fun g => (pyStr g, seriesFor data gvals vcol g))
      let skipped := (groupData.filter (fun p => p.2.length < 3)).map Prod.fst
      let filtered := groupData.filter (fun p => ! (p.2.length < 3 : Bool))
      if filtered.length < 3 then .error (.tooFewValidGroups skipped)
      else .ok { nGroups := filtered.length, skipped := skipped, groups := filtered }

/-! ### Dose-response (dose_response) -/

/-- The pairwise-complete (concentration, response) points: both columns
coerced, rows kept only when both coerce. -/
def pairwiseComplete (data : Table) (c1 c2 : String) : List (ℚ × ℚ) :=
  (((colVals data c1).map coerce).zip ((colVals data c2).map coerce)).filterMap
    (fun p => match p with
      | (some a, some b) => some (a, b)
      | _ => none)

/-- The points retained by the positivity filter `mask = x_clean > 0`. -/
def positivePairs (data : Table) (c1 c2 : String) : List (ℚ × ℚ) :=
  (pairwiseComplete data c1 c2).filter (fun p => decide (0 < p.1))

/-- The validation and filtering stage of dose_response (analysis.py lines
482-506): validate columns, require ≥4 pairwise-complete points, drop
non-positive concentrations, require ≥4 points to remain; on success
return exactly the (x, y) data handed to the 4PL fit.  The fit itself
(`scipy.optimize.curve_fit`) is an iterative float optimiser and is not
modelled; it, the R² computation and the plotting curve consume only the
returned pair. -/
def doseResponsePrepare (data : Table) (ccol rcol : String) :
    Except AErr (List ℚ × List ℚ) :=
  if decide (ccol ∉ columns data) || decide (rcol ∉ columns data) then
    .error .columnsMissingPlain
  else
    let combined := pairwiseComplete data ccol rcol
    if combined.length < 4 then .error .needAtLeast4
    else
      let pos := positivePairs data ccol rcol
      if pos.length < 4 then .error .notEnoughPositive
      else .ok (pos.map Prod.fst, pos.map Prod.snd)

/-- Total sum of squares of the retained responses about their mean, as in
line 521 of analysis.py. -/
def ssTot (yClean : List ℚ) : ℚ :=
  (yClean.map (fun v => (v - meanQ yClean) ^ 2)).sum

/-- The R² computation of dose_response (analysis.py lines 519-522):
1 − SS_res/SS_tot when SS_tot > 0, and 0 otherwise — the guard that keeps
the zero-variance edge case from producing NaN/−inf. -/
def rSquared (yClean yPred : List ℚ) : QF :=
  let ssRes := ((yClean.zip yPred).map (fun p => (p.1 - p.2) ^ 2)).sum
  if 0 < ssTot yClean then .fin (1 - ssRes / ssTot yClean) else .fin 0

/-! ### Kaplan-Meier survival analysis (kaplan_meier / km_curve) -/

/-- `np.unique(times[events == 1])`: the distinct event times in ascending
order.  `km_curve` first argsorts both arrays by time; the at-risk and
event counts below are order-invariant, so the sort is reflected only in
the ascending order of the distinct event times. -/
def uniqueEventTimes (pairs : List (ℚ × ℚ)) : List ℚ :=
  List.insertionSort (· ≤ ·) (((pairs.filter (fun p => p.2 == 1)).map Prod.fst).dedup)

/-- The survival-curve points after (0, 1.0): one step per distinct event
time t, multiplying the running survival by 1 − d/n with
n = #{time ≥ t} (never zero, since t is the time of some event row) and
d = #{time = t and event = 1}; time and survival are stored rounded to 4
decimals as in the code, while the running survival stays unrounded. -/
def kmSteps (pairs : List (ℚ × ℚ)) : List ℚ → ℚ → List (ℚ × ℚ)
  | [], _ => []
  | t :: rest, s =>
    let atRisk : ℕ := pairs.countP (fun p => decide (t ≤ p.1))
    let evAtT : ℕ := pairs.countP (fun p => decide (p.1 = t) && decide (p.2 = 1))
    let s2 := s * (1 - (evAtT : ℚ) / (atRisk : ℚ))
    (pyRound4 t, pyRound4 s2) :: kmSteps pairs rest s2

/-- Python's `next((i for i, p in enumerate(curve) if p.survival <= 0.5),
None)`: first index (from i) satisfying the predicate, with the point. -/
def firstIdxFrom (p : ℚ × ℚ → Bool) : List (ℚ × ℚ) → ℕ → Option (ℕ × (ℚ × ℚ))
  | [], _ => none
  | x :: xs, i => if p x then some (i, x) else firstIdxFrom p xs (i + 1)

/-- `km_curve(times, events)` (analysis.py lines 583-610): the curve
starting at (0, 1.0) with one point per distinct event time, and the median
survival via Python's `curve[median_idx]["time"] if median_idx else None` —
note the truthiness of `median_idx`, which also maps index 0 to None. -/
def kmCurve (times events : List ℚ) : List (ℚ × ℚ) × Option ℚ :=
  let pairs := times.zip events
  let curve := (0, 1) :: kmSteps pairs (uniqueEventTimes pairs) 1
  let median : Option ℚ :=
    match firstIdxFrom (fun p => decide (p.2 ≤ 1 / 2)) curve 0 with
    | some (i, x) => if i = 0 then none else some x.1
    | none => none
  (curve, median)

structure GroupKM where
  curve : List (ℚ × ℚ)
  medianSurvival : Option ℚ
  n : ℕ
deriving DecidableEq

inductive KMBody
  | grouped (gs : List (String × GroupKM))
  | single (curve : List (ℚ × ℚ)) (medianSurvival : Option ℚ)
deriving DecidableEq

/-- kaplan_meier's output: the valid-observation count plus either one
curve per retained group or a whole-population curve (the interpretation
string is not modelled). -/
structure KMResult where
  n : ℕ
  body : KMBody
deriving DecidableEq

/-- `df.loc[mask]` for the mask `df[gcol] == g`. -/
def rowsFor (data : Table) (gcol : String) (g : Val) : Table :=
  data.filter (fun r => valEq (getVal r gcol) g)

/-- The valid (time, event) pairs of a table: both columns coerced, rows
kept when both coerce (`pd.concat([t, e], axis=1).dropna()`). -/
def kmValidPairs (data : Table) (tcol ecol : String) : List (ℚ × ℚ) :=
  (((colVals data tcol).map coerce).zip ((colVals data ecol).map coerce)).filterMap
    (fun p => match p with
      | (some a, some b) => some (a, b)
      | _ => none)

/-- The per-group curves of kaplan_meier's grouped branch: one entry per
distinct non-missing group value, silently skipping (`continue`) groups
with fewer than 3 valid (time, event) pairs. -/
def kmGroupCurves (data : Table) (tcol ecol g : String) : List (String × GroupKM) :=
  (pyUnique (dropna (colVals data g))).filterMap (fun gv =>
    let valid := kmValidPairs (rowsFor data g gv) tcol ecol
    if valid.length < 3 then none
    else
      let c := kmCurve (valid.map Prod.fst) (valid.map Prod.snd)
      some (pyStr gv,
        ({ curve := c.1, medianSurvival := c.2, n := valid.length } : GroupKM)))

/-- kaplan_meier (analysis.py lines 557-647): validate the time and event
columns, require ≥3 valid paired observations, then — when a non-empty
group column name is supplied and present (Python truthiness of
`group_col and group_col in df.columns`) — the per-group curves;
otherwise a single whole-population curve. -/
def kaplanMeier (data : Table) (tcol ecol : String) (gcol : Option String) :
    Except AErr KMResult :=
  if decide (tcol ∉ columns data) then .error (.columnMissing tcol)
  else if decide (ecol ∉ columns data) then .error (.columnMissing ecol)
  else
    let combined := kmValidPairs data tcol ecol
    if combined.length < 3 then .error .notEnoughSurvival
    else
      let single : KMResult :=
        { n := combined.length
          body := .single (kmCurve (combined.map Prod.fst) (combined.map Prod.snd)).1
            (kmCurve (combined.map Prod.fst) (combined.map Prod.snd)).2 }
      match gcol with
      | some g =>
        if decide (g ≠ "") && decide (g ∈ columns data) then
          .ok { n := combined.length, body := .grouped (kmGroupCurves data tcol ecol g) }
        else .ok single
      | none => .ok single

/-! ### Concrete tables used in counterexamples and witnesses -/

/-- A table whose group column holds only case variants of the two labels
"true" and "false" (six raw spellings), three numeric observations per
normalised group. -/
def caseVariantTable : Table :=
  [[("g", .str "True"), ("v", .int 1)],
   [("g", .str "true"), ("v", .int 2)],
   [("g", .str "TRUE"), ("v", .int 3)],
   [("g", .str "false"), ("v", .int 4)],
   [("g", .str "False"), ("v", .int 5)],
   [("g", .str "FALSE"), ("v", .int 6)]]

/-- Group A [0, 0, 10] vs group B [1, 1, 1]: the mean difference is
positive while the rank-based effect direction is negative. -/
def signMismatchTable : Table :=
  [[("g", .int 1), ("v", .int 0)],
   [("g", .int 1), ("v", .int 0)],
   [("g", .int 1), ("v", .int 10)],
   [("g", .int 2), ("v", .int 1)],
   [("g", .int 2), ("v", .int 1)],
   [("g", .int 2), ("v", .int 1)]]

/-- A boolean group column with one missing value: pandas object dtype, so
the .str normalisation NaNs out every bool label. -/
def boolMissingTable : Table :=
  [[("g", .bool true), ("v", .int 1)],
   [("g", .bool true), ("v", .int 2)],
   [("g", .bool true), ("v", .int 3)],
   [("g", .bool false), ("v", .int 4)],
   [("g", .bool false), ("v", .int 5)],
   [("g", .bool false), ("v", .int 6)],
   [("g", .missing), ("v", .int 7)]]

/-- A two-group table with groups 1 and 2 and values [1, 2, 3], [4, 5, 6]. -/
def twoGroupWitnessTable : Table :=
  [[("g", .int 1), ("v", .int 1)], [("g", .int 1), ("v", .int 2)],
   [("g", .int 1), ("v", .int 3)], [("g", .int 2), ("v", .int 4)],
   [("g", .int 2), ("v", .int 5)], [("g", .int 2), ("v", .int 6)]]

/-- A table with a single numeric observation: sample std (ddof = 1) of one
value is NaN, and the code does not normalise it away. -/
def singleObsTable : Table := [[("x", .str "5")]]

/-- Five pairwise-complete points of which only two have positive
concentration. -/
def doseTable : Table :=
  [[("c", .int 1), ("r", .int 1)],
   [("c", .int 2), ("r", .int 2)],
   [("c", .int (-1)), ("r", .int 3)],
   [("c", .int 0), ("r", .int 4)],
   [("c", .int (-2)), ("r", .int 5)]]

/-! ### Properties of Python rounding -/

theorem rhe_floor_le (q : ℚ) : ⌊q⌋ ≤ rhe q := by
  unfold rhe; split_ifs <;> omega

theorem rhe_le_floor_add_one (q : ℚ) : rhe q ≤ ⌊q⌋ + 1 := by
  unfold rhe; split_ifs <;> omega

theorem rhe_mono {q r : ℚ} (h : q ≤ r) : rhe q ≤ rhe r := by
  rcases lt_or_eq_of_le (Int.floor_le_floor h) with hf | hf
  · calc rhe q ≤ ⌊q⌋ + 1 := rhe_le_floor_add_one q
    _ ≤ ⌊r⌋ := by omega
    _ ≤ rhe r := rhe_floor_le r
  · unfold rhe
    rw [← hf]
    have hd : q - (⌊q⌋ : ℚ) ≤ r - (⌊q⌋ : ℚ) := by linarith
    split_ifs <;> first | omega | linarith

theorem pyRound4_mono {q r : ℚ} (h : q ≤ r) : pyRound4 q ≤ pyRound4 r := by
  unfold pyRound4
  have h1 : q * 10000 ≤ r * 10000 := by nlinarith
  have h2 : rhe (q * 10000) ≤ rhe (r * 10000) := rhe_mono h1
  have h3 : ((rhe (q * 10000) : ℚ)) ≤ ((rhe (r * 10000) : ℚ)) := by exact_mod_cast h2
  linarith

theorem pyRound4_zero : pyRound4 0 = 0 := by
  norm_num [pyRound4, rhe]

theorem pyRound4_one : pyRound4 1 = 1 := by
  have hf : ⌊(10000 : ℚ)⌋ = 10000 := by
    rw [show ((10000 : ℚ)) = ((10000 : ℤ) : ℚ) by norm_num, Int.floor_intCast]
  norm_num [pyRound4, rhe, hf]

theorem pyRound4_nonneg {q : ℚ} (h : 0 ≤ q) : 0 ≤ pyRound4 q := by
  have := pyRound4_mono h
  rwa [pyRound4_zero] at this

theorem pyRound4_le_one {q : ℚ} (h : q ≤ 1) : pyRound4 q ≤ 1 := by
  have := pyRound4_mono h
  rwa [pyRound4_one] at this

/-! ### Lemmas about the Kaplan-Meier estimator -/

theorem mem_uniqueEventTimes {pairs : List (ℚ × ℚ)} {t : ℚ}
    (h : t ∈ uniqueEventTimes pairs) : ∃ p ∈ pairs, p.1 = t ∧ p.2 = 1 := by
  unfold uniqueEventTimes at h
  rw [List.mem_insertionSort, List.mem_dedup] at h
  obtain ⟨p, hp, hpt⟩ := List.mem_map.mp h
  rw [List.mem_filter] at hp
  exact ⟨p, hp.1, hpt, by simpa using hp.2⟩

/-- Core invariant of the curve steps: starting from a survival value in
[0, 1] and stepping only at genuine event times, every stored survival lies
in [0, 1] and the stored values never increase. -/
theorem kmSteps_props (pairs : List (ℚ × ℚ)) :
    ∀ uts : List ℚ, (∀ t ∈ uts, ∃ p ∈ pairs, p.1 = t ∧ p.2 = 1) →
    ∀ s : ℚ, 0 ≤ s → s ≤ 1 →
      (∀ q ∈ kmSteps pairs uts s, 0 ≤ q.2 ∧ q.2 ≤ 1) ∧
      ∀ c : ℚ, List.Chain (fun a b => b.2 ≤ a.2) (c, pyRound4 s)
        (kmSteps pairs uts s) := by
  intro uts
  induction uts with
  | nil => intro _ s _ _; exact ⟨by simp [kmSteps], fun c => List.Chain.nil⟩
  | cons t rest ih =>
    intro hmem s hs0 hs1
    obtain ⟨p, hp, hpt, hpe⟩ := hmem t (List.mem_cons_self t rest)
    have hn : 0 < pairs.countP (fun p => decide (t ≤ p.1)) := by
      rw [List.countP_pos_iff]
      exact ⟨p, hp, by simp [hpt]⟩
    have hdn : pairs.countP (fun p => decide (p.1 = t) && decide (p.2 = 1)) ≤
        pairs.countP (fun p => decide (t ≤ p.1)) := by
      apply List.countP_mono_left
      intro x _ hx
      simp only [Bool.and_eq_true, decide_eq_true_eq] at hx
      simp [hx.1]
    set d := pairs.countP (fun p => decide (p.1 = t) && decide (p.2 = 1)) with hd
    set n := pairs.countP (fun p => decide (t ≤ p.1)) with hnn
    have hratio0 : 0 ≤ (d : ℚ) / (n : ℚ) := by positivity
    have hratio1 : (d : ℚ) / (n : ℚ) ≤ 1 := by
      rw [div_le_one (by exact_mod_cast hn)]
      exact_mod_cast hdn
    have hs20 : 0 ≤ s * (1 - (d : ℚ) / (n : ℚ)) := by
      apply mul_nonneg hs0; linarith
    have hs2s : s * (1 - (d : ℚ) / (n : ℚ)) ≤ s := by nlinarith
    have hs21 : s * (1 - (d : ℚ) / (n : ℚ)) ≤ 1 := le_trans hs2s hs1
    obtain ⟨hb, hc⟩ := ih (fun u hu => hmem u (List.mem_cons_of_mem t hu))
      (s * (1 - (d : ℚ) / (n : ℚ))) hs20 hs21
    constructor
    · intro q hq
      rw [kmSteps] at hq
      rcases List.mem_cons.mp hq with hq | hq
      · rw [hq]
        exact ⟨pyRound4_nonneg hs20, pyRound4_le_one hs21⟩
      · exact hb q hq
    · intro c
      rw [kmSteps]
      exact List.Chain.cons (pyRound4_mono hs2s) (hc _)

/-- C4: every Kaplan-Meier curve produced by km_curve — whether for the
whole population or for one group — begins with the point (0, 1.0), its
survival values are monotonically non-increasing along the curve and lie in
[0, 1]; and when every event indicator is 0 the curve is exactly
[(0, 1.0)] and the median survival is null. -/
theorem km_curve_invariants (ts es : List ℚ) :
    (kmCurve ts es).1.head? = some (0, 1) ∧
    List.Chain' (fun a b => b.2 ≤ a.2) (kmCurve ts es).1 ∧
    (∀ q ∈ (kmCurve ts es).1, 0 ≤ q.2 ∧ q.2 ≤ 1) ∧
    ((∀ e ∈ es, e = 0) →
      (kmCurve ts es).1 = [(0, 1)] ∧ (kmCurve ts es).2 = none) := by
  have hmem : ∀ t ∈ uniqueEventTimes (ts.zip es),
      ∃ p ∈ ts.zip es, p.1 = t ∧ p.2 = 1 := fun t ht => mem_uniqueEventTimes ht
  obtain ⟨hb, hc⟩ := kmSteps_props (ts.zip es) (uniqueEventTimes (ts.zip es))
    hmem 1 (by norm_num) (le_refl 1)
  refine ⟨rfl, ?_, ?_, ?_⟩
  · show List.Chain _ (0, 1) (kmSteps (ts.zip es) (uniqueEventTimes (ts.zip es)) 1)
    have := hc 0
    rwa [pyRound4_one] at this
  · intro q hq
    rcases List.mem_cons.mp hq with hq | hq
    · rw [hq]; norm_num
    · exact hb q hq
  · intro hz
    have hfil : (ts.zip es).filter (fun p => p.2 == 1) = [] := by
      rw [List.filter_eq_nil_iff]
      intro p hp
      have := (List.of_mem_zip (a := p.1) (b := p.2) (by simpa using hp)).2
      simp [hz p.2 this]
    have hut : uniqueEventTimes (ts.zip es) = [] := by
      simp [uniqueEventTimes, hfil, List.insertionSort]
    have hcurve : (kmCurve ts es).1 = [(0, 1)] := by
      simp [kmCurve, hut, kmSteps]
    refine ⟨hcurve, ?_⟩
    simp only [kmCurve, hut, kmSteps]
    norm_num [firstIdxFrom]

/-- The Python median search, shifted past a non-matching head, agrees with
List.find? mapped to the time coordinate. -/
theorem firstIdxFrom_find? (p : ℚ × ℚ → Bool) :
    ∀ (l : List (ℚ × ℚ)) (i : ℕ), 1 ≤ i →
      (match firstIdxFrom p l i with
        | some (j, x) => if j = 0 then none else some x.1
        | none => none) = (l.find? p).map Prod.fst := by
  intro l
  induction l with
  | nil => intro i _; simp [firstIdxFrom]
  | cons x xs ih =>
    intro i hi
    by_cases hx : p x
    · rw [List.find?_cons_of_pos _ hx]
      have hi0 : ¬ i = 0 := by omega
      simp [firstIdxFrom, hx, hi0]
    · rw [List.find?_cons_of_neg _ hx]
      have := ih (i + 1) (by omega)
      simpa [firstIdxFrom, hx] using this

/-- C5: the median survival reported by km_curve is the time coordinate of
the first curve point whose survival value is at most 0.5, and is null
exactly when no curve point has survival at most 0.5 (formally: it equals
find? over the curve, mapped to the time coordinate).  The Python
truthiness quirk (index 0 also mapping to None) is invisible because the
curve head has survival 1.0 > 0.5. -/
theorem km_median_spec (ts es : List ℚ) :
    (kmCurve ts es).2 =
      ((kmCurve ts es).1.find? (fun p => decide (p.2 ≤ 1 / 2))).map Prod.fst := by
  have hpred : (fun p : ℚ × ℚ => decide (p.2 ≤ 1 / 2)) ((0 : ℚ), (1 : ℚ)) = false := by
    norm_num
  simp only [kmCurve]
  rw [List.find?_cons_of_neg _ (by simpa using hpred)]
  have h1 : firstIdxFrom (fun p => decide (p.2 ≤ 1 / 2))
      ((0, 1) :: kmSteps (ts.zip es) (uniqueEventTimes (ts.zip es)) 1) 0 =
      firstIdxFrom (fun p => decide (p.2 ≤ 1 / 2))
      (kmSteps (ts.zip es) (uniqueEventTimes (ts.zip es)) 1) 1 := by
    norm_num [firstIdxFrom]
  rw [h1]
  exact firstIdxFrom_find? _ _ 1 (le_refl 1)

/-- Witness for km_curve_invariants: at times [2, 1] with all event
indicators 0, the curve is exactly [(0, 1.0)] and the median is null. -/
theorem km_curve_invariants_witness :
    (kmCurve [2, 1] [0, 0]).1 = [(0, 1)] ∧ (kmCurve [2, 1] [0, 0]).2 = none :=
  (km_curve_invariants [2, 1] [0, 0]).2.2.2 (by
    intro e he
    rcases List.mem_cons.mp he with h | h
    · exact h
    · simpa using h)

/-- C10: when kaplan_meier is called with an existing (non-empty-named)
group column, the ungrouped data has ≥3 valid (time, event) pairs, and
every distinct group value has fewer than 3 valid pairs, the call still
succeeds and its per-group mapping is empty. -/
theorem kaplan_meier_all_groups_small
    (data : Table) (tcol ecol g : String)
    (h1 : tcol ∈ columns data) (h2 : ecol ∈ columns data)
    (hg1 : g ≠ "") (hg2 : g ∈ columns data)
    (h3 : 3 ≤ (kmValidPairs data tcol ecol).length)
    (hall : ∀ gv ∈ pyUnique (dropna (colVals data g)),
      (kmValidPairs (rowsFor data g gv) tcol ecol).length < 3) :
    kaplanMeier data tcol ecol (some g) =
      .ok { n := (kmValidPairs data tcol ecol).length, body := .grouped [] } := by
  have e5 : kmGroupCurves data tcol ecol g = [] := by
    unfold kmGroupCurves
    rw [List.filterMap_eq_nil_iff]
    intro gv hgv
    simp only [if_pos (hall gv hgv)]
  have e3 : ¬ (kmValidPairs data tcol ecol).length < 3 := by omega
  simp [kaplanMeier, h1, h2, hg1, hg2, e3, e5]

/-- Witness for kaplan_meier_all_groups_small: three valid rows split over
groups "a", "b" and a missing group value — every group has fewer than 3
valid pairs, yet the call succeeds with an empty groups mapping. -/
theorem kaplan_meier_all_groups_small_witness :
    kaplanMeier
      [[("t", .int 1), ("e", .int 1), ("grp", .str "a")],
       [("t", .int 2), ("e", .int 0), ("grp", .str "b")],
       [("t", .int 3), ("e", .int 1), ("grp", .missing)]]
      "t" "e" (some "grp") =
      .ok { n := 3, body := .grouped [] } := by
  have h := kaplan_meier_all_groups_small
    [[("t", .int 1), ("e", .int 1), ("grp", .str "a")],
     [("t", .int 2), ("e", .int 0), ("grp", .str "b")],
     [("t", .int 3), ("e", .int 1), ("grp", .missing)]]
    "t" "e" "grp"
    (by decide) (by decide) (by decide) (by decide)
    (by decide) (by decide)
  simpa using h

/-! ### One-way ANOVA: group-count validation -/

/-- C7: whenever the group column has fewer than 3 distinct non-missing
values (and both columns exist, so the column-existence check does not fire
first), one_way_anova fails with the InvalidGroupCount-class rejection —
whose message suggests the two-group test — and never reaches the omnibus
tests. -/
theorem one_way_anova_two_groups_rejected
    (data : Table) (gcol vcol : String)
    (h1 : gcol ∈ columns data) (h2 : vcol ∈ columns data)
    (h3 : (pyUnique (dropna (colVals data gcol))).length < 3) :
    oneWayAnova data gcol vcol =
      .error (.invalidGroupCount3plus gcol
        (pyUnique (dropna (colVals data gcol))).length) ∧
    (AErr.invalidGroupCount3plus gcol
        (pyUnique (dropna (colVals data gcol))).length).message =
      "Expected 3+ groups in '" ++ gcol ++ "', found " ++
      toString (pyUnique (dropna (colVals data gcol))).length ++
      ". Use t-test / Mann-Whitney for 2 groups." := by
  constructor
  · simp [oneWayAnova, h1, h2, h3]
  · rfl

/-- Witness for one_way_anova_two_groups_rejected: a table with 2 distinct
groups is rejected with the 3+-groups message. -/
theorem one_way_anova_two_groups_rejected_witness :
    oneWayAnova [[("g", .str "x"), ("v", .int 1)], [("g", .str "y"), ("v", .int 2)]]
      "g" "v" = .error (.invalidGroupCount3plus "g" 2) := by
  have h := (one_way_anova_two_groups_rejected
    [[("g", .str "x"), ("v", .int 1)], [("g", .str "y"), ("v", .int 2)]]
    "g" "v" (by decide) (by decide) (by decide)).1
  have hlen : (pyUnique (dropna (colVals
      [[("g", .str "x"), ("v", .int 1)], [("g", .str "y"), ("v", .int 2)]]
      "g"))).length = 2 := by decide
  rw [h, hlen]

/-! ### Two-group comparison -/

/-- C2: two_group_comparison counts the distinct raw group labels before
the case/whitespace normalisation, so a table whose group column holds only
case variants of two labels is rejected with the InvalidGroupCount error
(found 6) — contradicting the code's own stated intent that
true/True/TRUE be treated as the same group. -/
theorem two_group_case_variants_rejected :
    twoGroupComparison caseVariantTable "g" "v" =
      .error (.invalidGroupCount2 "g" 6) := by decide

/-- The in-place normalisation destroys boolean group labels: a boolean
group column with a missing value is object dtype, its bools become NaN
under .str.strip().str.lower(), the partition by the raw labels finds no
rows, and the call raises the InsufficientData error — although the column
has exactly 2 distinct non-missing values with 3 observations each. -/
theorem two_group_bool_missing_group_fails :
    twoGroupComparison boolMissingTable "g" "v" =
      .error .insufficientGroupSize := by decide

/-- Helper: the successful path of two_group_comparison, characterised.
When the group column has exactly 2 distinct non-missing raw values, the
normalisation is a no-op on the column — every value is an already
stripped/lower-case string or missing, or the column is of non-object
dtype (purely numeric, numeric with missing, or purely boolean with no
missing value) — and each group yields ≥3 numeric observations, the call
returns the result over the two groups' series.  Boolean columns that
contain a missing value are object dtype and satisfy neither disjunct:
on them the normalisation NaNs the labels and the call fails. -/
theorem twoGroup_success_characterization
    (data : Table) (gcol vcol : String) (a b : Val)
    (h1 : gcol ∈ columns data) (h2 : vcol ∈ columns data)
    (hu : pyUnique (dropna (colVals data gcol)) = [a, b])
    (hn : (colVals data gcol).map normVal = colVals data gcol ∨
      isObjectDtype (colVals data gcol) = false)
    (ha : 3 ≤ (seriesFor data (colVals data gcol) vcol a).length)
    (hb : 3 ≤ (seriesFor data (colVals data gcol) vcol b).length) :
    twoGroupComparison data gcol vcol =
      .ok { labelA := pyStr a, labelB := pyStr b,
            groupA := seriesFor data (colVals data gcol) vcol a,
            groupB := seriesFor data (colVals data gcol) vcol b,
            tSign := qsign (meanQ (seriesFor data (colVals data gcol) vcol a) -
              meanQ (seriesFor data (colVals data gcol) vcol b)),
            uStat := mwU (seriesFor data (colVals data gcol) vcol a)
              (seriesFor data (colVals data gcol) vcol b) } := by
  have hg : groupColAfterNorm data gcol = colVals data gcol := by
    unfold groupColAfterNorm
    rcases hn with hn | hn
    · split_ifs with h
      · exact hn
      · rfl
    · rw [hn]
      simp
  have e2 : ¬ ((seriesFor data (colVals data gcol) vcol a).length < 3) := by omega
  have e3 : ¬ ((seriesFor data (colVals data gcol) vcol b).length < 3) := by omega
  simp [twoGroupComparison, h1, h2, hu, hg, e2, e3]

/-- Counterexample to C1 as stated: a table with exactly 2 distinct
non-missing group values and 3 numeric observations per group on which
two_group_comparison succeeds, but the t-test effect sign (+1: group A has
the larger mean) and the Mann-Whitney effect sign (−1: group A has the
smaller rank sum) disagree. -/
theorem two_group_effect_sign_mismatch :
    (twoGroupComparison signMismatchTable "g" "v").map
      (fun r => decide (r.tSign = uEffectSign r)) = .ok false := by
  have hsa : seriesFor signMismatchTable (colVals signMismatchTable "g") "v"
      (.int 1) = [0, 0, 10] := by decide
  have hsb : seriesFor signMismatchTable (colVals signMismatchTable "g") "v"
      (.int 2) = [1, 1, 1] := by decide
  have h := twoGroup_success_characterization signMismatchTable "g" "v"
    (.int 1) (.int 2)
    (by decide) (by decide) (by decide) (Or.inr (by decide))
    (by rw [hsa]; norm_num) (by rw [hsb]; norm_num)
  rw [h, hsa, hsb]
  simp only [Except.map]
  norm_num [meanQ, mwU, qsign, uEffectSign]

/-- C1 (amended): when the group column has exactly 2 distinct non-missing
values, the in-place normalisation is a no-op on the column — every value
is an already stripped/lower-case string or missing, or the column is of
non-object dtype (purely numeric, numeric with missing, or purely boolean
with no missing value) — and each group yields at least 3 numeric
observations, two_group_comparison succeeds and returns both the t-test
and the Mann-Whitney result over the two groups' numeric series.
(Matching effect signs are not guaranteed — see the counterexample for C1;
labels rewritten by the normalisation make the call fail instead — see the
counterexample for C2 and two_group_bool_missing_group_fails.) -/
theorem two_group_comparison_ok
    (data : Table) (gcol vcol : String) (a b : Val)
    (h1 : gcol ∈ columns data) (h2 : vcol ∈ columns data)
    (hu : pyUnique (dropna (colVals data gcol)) = [a, b])
    (hn : (colVals data gcol).map normVal = colVals data gcol ∨
      isObjectDtype (colVals data gcol) = false)
    (ha : 3 ≤ (seriesFor data (colVals data gcol) vcol a).length)
    (hb : 3 ≤ (seriesFor data (colVals data gcol) vcol b).length) :
    twoGroupComparison data gcol vcol =
      .ok { labelA := pyStr a, labelB := pyStr b,
            groupA := seriesFor data (colVals data gcol) vcol a,
            groupB := seriesFor data (colVals data gcol) vcol b,
            tSign := qsign (meanQ (seriesFor data (colVals data gcol) vcol a) -
              meanQ (seriesFor data (colVals data gcol) vcol b)),
            uStat := mwU (seriesFor data (colVals data gcol) vcol a)
              (seriesFor data (colVals data gcol) vcol b) } :=
  twoGroup_success_characterization data gcol vcol a b h1 h2 hu hn ha hb

/-- Witness for two_group_comparison_ok: the call succeeds, the t sign is
−1 and the U statistic is 0. -/
theorem two_group_comparison_ok_witness :
    twoGroupComparison twoGroupWitnessTable "g" "v" =
      .ok { labelA := "1", labelB := "2", groupA := [1, 2, 3],
            groupB := [4, 5, 6], tSign := -1, uStat := 0 } := by
  have hsa : seriesFor twoGroupWitnessTable (colVals twoGroupWitnessTable "g")
      "v" (.int 1) = [1, 2, 3] := by decide
  have hsb : seriesFor twoGroupWitnessTable (colVals twoGroupWitnessTable "g")
      "v" (.int 2) = [4, 5, 6] := by decide
  have h := two_group_comparison_ok twoGroupWitnessTable "g" "v" (.int 1) (.int 2)
    (by decide) (by decide) (by decide) (Or.inr (by decide))
    (by rw [hsa]; norm_num) (by rw [hsb]; norm_num)
  rw [h, hsa, hsb]
  norm_num [pyStr, meanQ, qsign, mwU]
  exact ⟨by decide, by decide⟩

/-! ### Descriptive statistics: NaN output and boolean-likeness omission -/

/-- Counterexample to C3 as stated: descriptive_statistics succeeds on a
single-observation column and its result contains NaN (the sample std — and
likewise skewness — of one observation). -/
theorem desc_stats_single_obs_nan :
    resultHasNaN (descriptiveStatistics singleObsTable ["x"]) = true := by
  have hcd : coerceDropna (colVals singleObsTable "x") = [5] := by decide
  have hmem : "x" ∈ columns singleObsTable := by decide
  have hbl : boolLike (colVals singleObsTable "x") = false := by decide
  have h1 : descriptiveStatistics singleObsTable ["x"] =
      [("x", mkStatsBlock [5])] := by
    simp [descriptiveStatistics, List.filterMap_cons, hcd, hmem, hbl]
  rw [h1]
  simp [resultHasNaN, StatsBlock.hasNaN, mkStatsBlock, QF.isNaN]

/-- C8: under ≥4 pairwise-complete points (and existing columns),
dose_response fails with the post-filter InsufficientData error exactly
when fewer than 4 positive-concentration points remain, and on success the
data handed to the fit, R² and curve generation is exactly the
positive-concentration subset. -/
theorem dose_response_positive_filter
    (data : Table) (ccol rcol : String)
    (h1 : ccol ∈ columns data) (h2 : rcol ∈ columns data)
    (hc : 4 ≤ (pairwiseComplete data ccol rcol).length) :
    (doseResponsePrepare data ccol rcol = .error .notEnoughPositive ↔
      (positivePairs data ccol rcol).length < 4) ∧
    (4 ≤ (positivePairs data ccol rcol).length →
      doseResponsePrepare data ccol rcol =
        .ok ((positivePairs data ccol rcol).map Prod.fst,
          (positivePairs data ccol rcol).map Prod.snd)) := by
  have e1 : ¬ (pairwiseComplete data ccol rcol).length < 4 := by omega
  constructor
  · constructor
    · intro h
      by_contra hpos
      push_neg at hpos
      have e2 : ¬ (positivePairs data ccol rcol).length < 4 := by omega
      simp [doseResponsePrepare, h1, h2, e1, e2] at h
    · intro h
      simp [doseResponsePrepare, h1, h2, e1, h]
  · intro h
    have e2 : ¬ (positivePairs data ccol rcol).length < 4 := by omega
    simp [doseResponsePrepare, h1, h2, e1, e2]

/-- Witness for dose_response_positive_filter: 5 complete points, 2
positive — the call fails with the post-filter error. -/
theorem dose_response_positive_filter_witness :
    doseResponsePrepare doseTable "c" "r" = .error .notEnoughPositive :=
  (dose_response_positive_filter doseTable "c" "r"
    (by decide) (by decide) (by decide)).1.mpr (by decide)

/-- C3 (amended): the dose_response R² is never NaN (nor infinite): by the
guard at line 522 it is 1 − SS_res/SS_tot when SS_tot > 0 and exactly 0
when SS_tot = 0.  (descriptive_statistics does NOT share this guarantee —
see the counterexample for C3.) -/
theorem dose_r_squared_never_nan (yClean yPred : List ℚ) :
    (rSquared yClean yPred).isNaN = false ∧
    (ssTot yClean = 0 → rSquared yClean yPred = .fin 0) := by
  constructor
  · unfold rSquared
    split_ifs <;> rfl
  · intro h
    unfold rSquared
    rw [if_neg (by rw [h]; exact lt_irrefl 0)]

/-- Witness for dose_r_squared_never_nan: a constant response list has
SS_tot = 0 and R² = 0. -/
theorem dose_r_squared_never_nan_witness :
    rSquared [1, 1] [0, 2] = .fin 0 :=
  (dose_r_squared_never_nan [1, 1] [0, 2]).2
    (by norm_num [ssTot, meanQ])

end Statlab
